import Mathlib

/-!
Verification development for `TwitterScraper.py` (Twitter-Search-API-Python).

The Python source is shallowly embedded below:

* HTML, as seen through BeautifulSoup, is the inductive type `Node` (a forest of
  tagged nodes queryable by tag name, class, and attribute).
* `TwitterSearch.parse_tweets` is `parse_tweets`, returning `Except` because the
  Python code can raise (`KeyError` on a missing attribute subscript, `ValueError`
  from `int()`/`float()`, `IndexError` on `favorite_span[0]`).
* `TwitterSearch.construct_url` is `construct_url` (with `urlencode`/`quote_plus`
  modelled byte-for-byte).
* `TwitterSearch.execute_search` is `execute_search`: the environment supplies the
  outcome of each attempt (`none` = any exception: network error or JSON-decode
  failure), and the model returns the requested URLs, the number of error-delay
  sleeps, and the first successfully decoded response.
* `TwitterSearch.perform_search` is `searchLoop`/`perform_search`: the network is
  an oracle giving the decoded result of the n-th `execute_search` call, the sink
  (`save_tweets`) is a caller-supplied state machine, and a fuel parameter bounds
  the number of loop iterations (the Python loop need not terminate).  Each loop
  iteration is logged in an `IterLog`, so that theorems can speak about the pages
  forwarded to the sink, the cursors computed, and the fetches issued.
* `TwitterSlicer.search` is `slicer_search`, with `datetime` dates modelled as day
  ordinals (`Int`) and `strftime("%Y-%m-%d")` via exact Gregorian calendar
  arithmetic.

Python object identity (the `is not` comparison on line 64 of the source) is
modelled as follows: each call to `parse_tweets` creates fresh tweet dicts and
fresh attribute-value strings, so `min_tweet['tweet_id'] is max_tweet['tweet_id']`
holds exactly when `min_tweet` and `max_tweet` are the same dict, i.e. when both
come from the same `parse_tweets` call and that page has exactly one tweet.
(CPython may intern some strings, e.g. single-character ones; we model the
language-level semantics in which distinct parses yield distinct objects.)
-/

/-- An HTML element as exposed by the DOM capability: tag name, class list,
attribute map, child elements (document order), and directly contained text. -/
inductive Node : Type where
  | mk : (tag : String) → (classes : List String) → (attrs : List (String × String)) →
      (children : List Node) → (text : String) → Node

def Node.tag : Node → String
  | .mk t _ _ _ _ => t

def Node.classes : Node → List String
  | .mk _ c _ _ _ => c

def Node.attrs : Node → List (String × String)
  | .mk _ _ a _ _ => a

def Node.children : Node → List Node
  | .mk _ _ _ ch _ => ch

def Node.text : Node → String
  | .mk _ _ _ _ tx => tx

mutual

/-- A node followed by all its descendants, document (pre-)order. -/
def allNode : Node → List Node
  | Node.mk t c a ch tx => Node.mk t c a ch tx :: allForest ch

/-- All elements of a forest in document (pre-)order: each root before its
descendants, siblings left to right. -/
def allForest : List Node → List Node
  | [] => []
  | n :: ns => allNode n ++ allForest ns

end

mutual

/-- All (parent, child) edges inside the subtree rooted at a node,
in document order of the child. -/
def childPairsNode : Node → List (Node × Node)
  | Node.mk t c a ch tx => childPairsForest (Node.mk t c a ch tx) ch

/-- All (parent, child) edges below parent `p` whose child forest is given,
plus all edges inside those children, in document order of the child. -/
def childPairsForest : Node → List Node → List (Node × Node)
  | _, [] => []
  | p, n :: ns => (p, n) :: (childPairsNode n ++ childPairsForest p ns)

end

mutual

/-- Model of `node.get_text()`: concatenated text of a subtree, document order. -/
def Node.getText : Node → String
  | Node.mk _ _ _ ch tx => tx ++ getTextForest ch

/-- Concatenated text of a forest, document order. -/
def getTextForest : List Node → String
  | [] => ""
  | n :: ns => Node.getText n ++ getTextForest ns

end

/-- Does `n` match a tag-name plus CSS-class filter (BeautifulSoup's
`(tag, class_=cls)` match: the class list contains `cls`)? -/
def matchesTagClass (tag cls : String) (n : Node) : Bool :=
  n.tag == tag && n.classes.contains cls

/-- Model of `soup.find_all(tag, class_=cls)`: all matching elements of the document,
document order. -/
def find_all (tag cls : String) (forest : List Node) : List Node :=
  (allForest forest).filter (matchesTagClass tag cls)

/-- Model of `n.find(tag, class_=cls)`: first matching proper descendant of `n`. -/
def Node.find (n : Node) (tag cls : String) : Option Node :=
  (find_all tag cls n.children).head?

/-- Model of `n.select("tagA.clsA > tagB.clsB")`: every descendant of `n` matching
`tagB.clsB` whose direct parent (possibly `n` itself) matches `tagA.clsA`,
document order. -/
def Node.select (n : Node) (tagA clsA tagB clsB : String) : List Node :=
  (childPairsNode n).filterMap (fun pc =>
    if matchesTagClass tagA clsA pc.1 && matchesTagClass tagB clsB pc.2 then some pc.2 else none)

/-- Dictionary-style attribute lookup, `n.attrs.get(k)` flavour (no raise). -/
def attrLookup (n : Node) (k : String) : Option String :=
  (n.attrs.find? (fun kv => kv.1 == k)).map (fun kv => kv.2)

/-- Subscript attribute access `n[k]`: raises `KeyError` when absent. -/
def getAttr (n : Node) (k : String) : Except String String :=
  match attrLookup n k with
  | some v => Except.ok v
  | none => Except.error ("KeyError: " ++ k)

/-! ### Python `int()` / `float()` acceptance on strings -/

/-- Whitespace stripped by Python's `int()`/`float()` (ASCII subset). -/
def isPyWs (c : Char) : Bool :=
  c == ' ' || c == '\t' || c == '\n' || c == '\r' || c == '\x0b' || c == '\x0c'

/-- Strip leading and trailing whitespace from a character list. -/
def stripWs (cs : List Char) : List Char :=
  ((cs.dropWhile isPyWs).reverse.dropWhile isPyWs).reverse

/-- Drop one optional leading sign. -/
def dropSign : List Char → List Char
  | '+' :: r => r
  | '-' :: r => r
  | r => r

/-- Is the leading character a minus sign? -/
def isNeg : List Char → Bool
  | '-' :: _ => true
  | _ => false

/-- Continue a digit run: digits, with single underscores allowed between
digits (Python 3.6+ numeric literals).  Returns the accumulated value and the
unconsumed rest, or `none` on a misplaced underscore. -/
def digitsTail : Nat → List Char → Option (Nat × List Char)
  | acc, [] => some (acc, [])
  | acc, c :: rest =>
    if c.isDigit then digitsTail (acc * 10 + (c.toNat - 48)) rest
    else if c == '_' then
      match rest with
      | d :: rest2 => if d.isDigit then digitsTail (acc * 10 + (d.toNat - 48)) rest2 else none
      | [] => none
    else some (acc, c :: rest)

/-- Parse a nonempty digit run (with embedded underscores): value and rest. -/
def digitsStart : List Char → Option (Nat × List Char)
  | c :: rest => if c.isDigit then digitsTail (c.toNat - 48) rest else none
  | [] => none

/-- Python `int(s)` (base 10): `some` value, or `none` for a `ValueError`. -/
def pyInt (s : String) : Option Int :=
  match stripWs s.data with
  | [] => none
  | cs =>
    let body := dropSign cs
    match digitsStart body with
    | some (v, []) => some (if isNeg cs then -(v : Int) else (v : Int))
    | _ => none

/-- Optional exponent suffix of a Python float literal, which must end the string. -/
def expPart : List Char → Bool
  | [] => true
  | e :: rest =>
    if e == 'e' || e == 'E' then
      match digitsStart (dropSign rest) with
      | some (_, []) => true
      | _ => false
    else false

/-- Numeric body of a Python float literal (after sign): `D[.D?][exp]`, `.D[exp]`. -/
def numericBody (cs : List Char) : Bool :=
  match cs with
  | '.' :: rest =>
    match digitsStart rest with
    | some (_, rest2) => expPart rest2
    | none => false
  | _ =>
    match digitsStart cs with
    | some (_, rest) =>
      match rest with
      | '.' :: rest2 =>
        match digitsStart rest2 with
        | some (_, rest3) => expPart rest3
        | none => expPart rest2
      | _ => expPart rest
    | none => false

/-- Does Python `float(s)` accept `s` (else `ValueError`)? -/
def pyFloatAccepts (s : String) : Bool :=
  match stripWs s.data with
  | [] => false
  | cs =>
    let body := dropSign cs
    let lower := body.map Char.toLower
    if lower == "inf".data || lower == "infinity".data || lower == "nan".data then true
    else numericBody body

/-! ### The Record data model and `parse_tweets` -/

/-- One extracted record (the `tweet` dict built in `parse_tweets`).
`created_at` stores the accepted `data-time-ms` attribute text; the `float`
value it denotes is abstracted by its literal, since no claim inspects it. -/
structure Tweet where
  tweet_id : String
  text : Option String
  user_id : Option String
  user_screen_name : Option String
  user_name : Option String
  created_at : Option String
  retweets : Int
  favorites : Int
deriving DecidableEq, Repr

/-- The author block: `li.find("div", class_="tweet")`, then subscript reads of
`data-user-id` (twice: `user_id` and `user_screen_name`) and `data-name`. -/
def userFields (li : Node) : Except String (Option String × Option String × Option String) :=
  match li.find "div" "tweet" with
  | none => Except.ok (none, none, none)
  | some d =>
    match attrLookup d "data-user-id" with
    | none => Except.error "KeyError: data-user-id"
    | some u =>
      match attrLookup d "data-name" with
      | none => Except.error "KeyError: data-name"
      | some nm => Except.ok (some u, some u, some nm)

/-- The date block: `li.find("span", class_="_timestamp")`, then
`float(span['data-time-ms'])`. -/
def createdField (li : Node) : Except String (Option String) :=
  match li.find "span" "_timestamp" with
  | none => Except.ok none
  | some sp =>
    match attrLookup sp "data-time-ms" with
    | none => Except.error "KeyError: data-time-ms"
    | some v =>
      if pyFloatAccepts v then Except.ok (some v)
      else Except.error "ValueError: could not convert string to float"

/-- The selection `li.select("span.ProfileTweet-action--retweet > span.ProfileTweet-actionCount")`. -/
def retweetSel (li : Node) : List Node :=
  li.select "span" "ProfileTweet-action--retweet" "span" "ProfileTweet-actionCount"

/-- The selection `li.select("span.ProfileTweet-action--favorite > span.ProfileTweet-actionCount")`. -/
def favoriteSel (li : Node) : List Node :=
  li.select "span" "ProfileTweet-action--favorite" "span" "ProfileTweet-actionCount"

/-- The retweet-count block: guarded by `len(retweet_span) > 0`, then
`int(retweet_span[0]['data-tweet-stat-count'])`. -/
def retweetField (li : Node) : Except String Int :=
  match retweetSel li with
  | [] => Except.ok 0
  | r0 :: _ =>
    match attrLookup r0 "data-tweet-stat-count" with
    | none => Except.error "KeyError: data-tweet-stat-count"
    | some v =>
      match pyInt v with
      | some i => Except.ok i
      | none => Except.error "ValueError: invalid literal for int"

/-- The favourite-count block.  NOTE (faithful to the source, lines 148–150):
the guard is `len(retweet_span) > 0`, not the length of `favorite_span`; and
`favorite_span[0]` raises `IndexError` when the favourite selection is empty
while the retweet selection is not. -/
def favoriteField (li : Node) : Except String Int :=
  if (retweetSel li).length > 0 then
    match favoriteSel li with
    | [] => Except.error "IndexError: list index out of range"
    | f0 :: _ =>
      match attrLookup f0 "data-tweet-stat-count" with
      | none => Except.error "KeyError: data-tweet-stat-count"
      | some v =>
        match pyInt v with
        | some i => Except.ok i
        | none => Except.error "ValueError: invalid literal for int"
  else Except.ok 0

/-- Body of the `for li in soup.find_all(...)` loop of `parse_tweets`:
`ok none` when the node is skipped (`'data-item-id' not in li.attrs`),
`ok (some t)` for an extracted record, `error` when the Python body raises. -/
def parseItem (li : Node) : Except String (Option Tweet) :=
  match attrLookup li "data-item-id" with
  | none => Except.ok none
  | some tid =>
    let text := (li.find "p" "tweet-text").map Node.getText
    match userFields li with
    | Except.error e => Except.error e
    | Except.ok (uid, uscr, unm) =>
      match createdField li with
      | Except.error e => Except.error e
      | Except.ok created =>
        match retweetField li with
        | Except.error e => Except.error e
        | Except.ok retweets =>
          match favoriteField li with
          | Except.error e => Except.error e
          | Except.ok favorites =>
            Except.ok (some ⟨tid, text, uid, uscr, unm, created, retweets, favorites⟩)

/-- Run the loop body over the stream items in order, accumulating the records. -/
def parseStream : List Node → Except String (List Tweet)
  | [] => Except.ok []
  | li :: rest =>
    match parseItem li with
    | Except.error e => Except.error e
    | Except.ok t? =>
      match parseStream rest with
      | Except.error e => Except.error e
      | Except.ok ts =>
        match t? with
        | none => Except.ok ts
        | some t => Except.ok (t :: ts)

/-- Model of `TwitterSearch.parse_tweets`: select `li.js-stream-item` nodes and extract. -/
def parse_tweets (items_html : List Node) : Except String (List Tweet) :=
  parseStream (find_all "li" "js-stream-item" items_html)

instance exceptDecEq {ε α : Type} [DecidableEq ε] [DecidableEq α] :
    DecidableEq (Except ε α) := fun a b =>
  match a, b with
  | Except.ok x, Except.ok y =>
    if h : x = y then isTrue (by rw [h]) else isFalse (fun hh => h (by cases hh; rfl))
  | Except.error x, Except.error y =>
    if h : x = y then isTrue (by rw [h]) else isFalse (fun hh => h (by cases hh; rfl))
  | Except.ok _, Except.error _ => isFalse (fun hh => by cases hh)
  | Except.error _, Except.ok _ => isFalse (fun hh => by cases hh)

/-! ### `construct_url` (QueryBuilder): `urlencode` with `quote_plus` -/

/-- Uppercase hexadecimal digit. -/
def hexDigit (n : Nat) : Char := Char.ofNat (if n < 10 then 48 + n else 55 + n)

/-- UTF-8 encoding of a character, as byte values. -/
def utf8Bytes (c : Char) : List Nat :=
  let n := c.toNat
  if n < 0x80 then [n]
  else if n < 0x800 then [0xC0 + n / 0x40, 0x80 + n % 0x40]
  else if n < 0x10000 then [0xE0 + n / 0x1000, 0x80 + n / 0x40 % 0x40, 0x80 + n % 0x40]
  else [0xF0 + n / 0x40000, 0x80 + n / 0x1000 % 0x40, 0x80 + n / 0x40 % 0x40, 0x80 + n % 0x40]

/-- The characters `quote_plus` leaves unescaped (urllib's always-safe set). -/
def isUrlSafe (c : Char) : Bool :=
  (c.isAlpha && c.toNat < 128) || c.isDigit || c == '_' || c == '.' || c == '-' || c == '~'

/-- One percent-escaped byte, `%XX` with uppercase hex. -/
def percentByte (n : Nat) : String := String.mk ['%', hexDigit (n / 16), hexDigit (n % 16)]

/-- Model of `urllib.parse.quote_plus` on one character. -/
def quote_plus_char (c : Char) : String :=
  if c == ' ' then "+"
  else if isUrlSafe c then String.singleton c
  else String.join ((utf8Bytes c).map percentByte)

/-- Model of `urllib.parse.quote_plus`. -/
def quote_plus (s : String) : String := String.join (s.data.map quote_plus_char)

/-- Model of `urllib.parse.urlencode` over an insertion-ordered parameter list. -/
def urlencode (params : List (String × String)) : String :=
  String.intercalate "&" (params.map (fun kv => quote_plus kv.1 ++ "=" ++ quote_plus kv.2))

/-- Model of `TwitterSearch.construct_url`: params `f=tweets`, `q=query`, and
`max_position` when not `None`; assembled by `urlunparse` for host
`twitter.com`, path `/i/search/timeline`. -/
def construct_url (query : String) (max_position : Option String) : String :=
  let params := [("f", "tweets"), ("q", query)] ++
    (match max_position with
     | some mp => [("max_position", mp)]
     | none => [])
  "https://twitter.com/i/search/timeline" ++ "?" ++ urlencode params

/-! ### `execute_search` (FetchWithRetry) -/

/-- The decoded JSON envelope of one successful request.
`items_html = none` models the key being absent from the envelope (so that the
subscript `response['items_html']` raises `KeyError`); `some none` models JSON
`null`; `some (some forest)` models an HTML-fragment string, already viewed
through the parsing capability as a node forest (the empty string is `[]`). -/
structure Response where
  items_html : Option (Option (List Node))
  min_position : Option String

/-- Model of `TwitterSearch.execute_search`, driven by the outcome of each attempt:
`none` = the attempt raised (network error, non-2xx, or JSON-decode failure),
`some r` = the attempt decoded to `r`.  Returns the URL requested by each
attempt, the number of error-delay sleeps, and the first decoded response;
`none` when no attempt in the given list succeeds (the Python function would
still be retrying).  Faithful to the source: every retry re-requests the same
URL, and each failure causes exactly one `sleep(error_delay)`. -/
def execute_search (url : String) : List (Option Response) → Option (List String × Nat × Response)
  | [] => none
  | none :: rest =>
    match execute_search url rest with
    | none => none
    | some (us, k, r) => some (url :: us, k + 1, r)
  | some r :: _ => some ([url], 0, r)

/-! ### `perform_search` (PaginationEngine) -/

/-- What one iteration of the `while` loop of `perform_search` did:
the `min_position` field of the response it processed, the page of records it
parsed, the sink's answer (`none` when the page was empty and the loop broke
before calling `save_tweets`), and the cursor/URL of the fetch it issued
(`none`/`none` when the advance guard `min_tweet['tweet_id'] is not
max_tweet['tweet_id']` failed and no fetch was issued). -/
structure IterLog where
  minPos : Option String
  tweets : List Tweet
  sinkRes : Option Bool
  cursor : Option String
  fetchUrl : Option String
deriving DecidableEq, Repr

/-- How a (fuel-bounded) run of `perform_search` ended. -/
inductive Outcome where
  | finished
  | keyError
  | raised (msg : String)
  | outOfFuel
deriving DecidableEq, Repr

/-- The `while` loop of `TwitterSearch.perform_search`.

Arguments after the oracle: remaining fuel (bounds loop iterations; the Python
loop need not terminate), the current `response` (`none` = Python `None`),
`continue_search`, `min_tweet` paired with the index of the iteration whose
`parse_tweets` call created it (for the object-identity test), the index of the
next `execute_search` call in the oracle, the current iteration index, and the
sink state.

The advance guard is Python's `min_tweet['tweet_id'] is not
max_tweet['tweet_id']`: the two strings are the same object exactly when
`min_tweet` and `max_tweet` are the same dict, i.e. when `min_tweet` was
created by this very iteration's parse and the page has exactly one tweet. -/
def searchLoop {σ : Type} (sinkStep : σ → List Tweet → σ × Bool) (query : String)
    (oracle : Nat → Option Response) :
    Nat → Option Response → Bool → Option (Tweet × Nat) → Nat → Nat → σ →
      List IterLog × Outcome
  | 0, _, _, _, _, _, _ => ([], Outcome.outOfFuel)
  | _ + 1, none, _, _, _, _, _ => ([], Outcome.finished)
  | fuel + 1, some r, cont, minT, fetchIdx, iter, s =>
    if cont then
      match r.items_html with
      | none => ([], Outcome.keyError)
      | some none => ([], Outcome.finished)
      | some (some frag) =>
        match parse_tweets frag with
        | Except.error e => ([], Outcome.raised e)
        | Except.ok [] => ([⟨r.min_position, [], none, none, none⟩], Outcome.finished)
        | Except.ok (t0 :: rest) =>
          let mPair : Tweet × Nat :=
            match minT with
            | none => (t0, iter)
            | some m => m
          let step := sinkStep s (t0 :: rest)
          let maxT := List.getLastD rest t0
          if mPair.2 == iter && (t0 :: rest).length == 1 then
            let next := searchLoop sinkStep query oracle fuel (some r) step.2 (some mPair)
              fetchIdx (iter + 1) step.1
            (⟨r.min_position, t0 :: rest, some step.2, none, none⟩ :: next.1, next.2)
          else
            let cursor :=
              match r.min_position with
              | some mp => mp
              | none => "TWEET-" ++ maxT.tweet_id ++ "-" ++ mPair.1.tweet_id
            let url := construct_url query (some cursor)
            let next := searchLoop sinkStep query oracle fuel (oracle fetchIdx) step.2
              (some mPair) (fetchIdx + 1) (iter + 1) step.1
            (⟨r.min_position, t0 :: rest, some step.2, some cursor, some url⟩ :: next.1, next.2)
    else ([], Outcome.finished)

/-- Model of `TwitterSearch.perform_search`: first fetch (oracle index 0), then the loop.
The oracle gives the decoded result of the n-th `execute_search` call (`none`
= the call returned Python `None`, i.e. the body decoded to JSON `null`). -/
def perform_search {σ : Type} (sinkStep : σ → List Tweet → σ × Bool) (sinkInit : σ)
    (query : String) (oracle : Nat → Option Response) (fuel : Nat) :
    List IterLog × Outcome :=
  searchLoop sinkStep query oracle fuel (oracle 0) true none 1 0 sinkInit

/-- Placeholder record, used only as the default of `List.getLastD`/`headD`
in theorem statements about nonempty pages. -/
def defTweet : Tweet := ⟨"", none, none, none, none, none, 0, 0⟩

/-- Placeholder log entry, used only as the default of `List.headD`. -/
def defLog : IterLog := ⟨none, [], none, none, none⟩

/-! ### `TwitterSlicer.search` (RangeSplitter) -/

/-- Day ordinal of a Gregorian calendar date (days since 1970-01-01); exact
integer calendar arithmetic, matching `datetime.date`/midnight `datetime`. -/
def days_from_civil (y m d : Int) : Int :=
  let y2 := if m ≤ 2 then y - 1 else y
  let era := (if 0 ≤ y2 then y2 else y2 - 399) / 400
  let yoe := y2 - era * 400
  let doy := (153 * (m + (if 2 < m then -3 else 9)) + 2) / 5 + d - 1
  let doe := yoe * 365 + yoe / 4 - yoe / 100 + doy
  era * 146097 + doe - 719468

/-- Gregorian date (year, month, day) of a day ordinal. -/
def civil_from_days (z0 : Int) : Int × Int × Int :=
  let z := z0 + 719468
  let era := (if 0 ≤ z then z else z - 146096) / 146097
  let doe := z - era * 146097
  let yoe := (doe - doe / 1460 + doe / 36524 - doe / 146096) / 365
  let y := yoe + era * 400
  let doy := doe - (365 * yoe + yoe / 4 - yoe / 100)
  let mp := (5 * doy + 2) / 153
  let d := doy - (153 * mp + 2) / 5 + 1
  let m := mp + (if mp < 10 then 3 else -9)
  (if m ≤ 2 then y + 1 else y, m, d)

/-- Zero-pad to two digits. -/
def pad2 (n : Int) : String := if n < 10 then "0" ++ toString n else toString n

/-- Zero-pad to four digits. -/
def pad4 (n : Int) : String :=
  if n < 10 then "000" ++ toString n
  else if n < 100 then "00" ++ toString n
  else if n < 1000 then "0" ++ toString n
  else toString n

/-- Model of `strftime("%Y-%m-%d")` applied to a day ordinal. -/
def strftimeYmd (z : Int) : String :=
  match civil_from_days z with
  | (y, m, d) => pad4 y ++ "-" ++ pad2 m ++ "-" ++ pad2 d

/-- Model of `TwitterSlicer.search`, reduced to the sub-queries it submits to the worker
pool, in submission order.  `since`/`until` are midnight datetimes modelled as
day ordinals, so `(until - since).days` is their difference; for each
`i in range(0, n_days)` the submitted query is
`"%s since:%s until:%s" % (query, (since+i).strftime(...), (since+i+1).strftime(...))`. -/
def slicer_search (query : String) (since untl : Int) : List String :=
  let n_days := untl - since
  (List.range n_days.toNat).map (fun i =>
    query ++ (" since:" ++ strftimeYmd (since + (i : Int)) ++
      " until:" ++ strftimeYmd (since + (i : Int) + 1)))

/-! ### Sanity checks of the URL builder and the calendar model -/

example : construct_url "Babylon 5" none =
    "https://twitter.com/i/search/timeline?f=tweets&q=Babylon+5" := by decide

example : construct_url "q" (some "TWEET-1-2") =
    "https://twitter.com/i/search/timeline?f=tweets&q=q&max_position=TWEET-1-2" := by decide

example : strftimeYmd (days_from_civil 2016 10 1) = "2016-10-01" := by decide

example : strftimeYmd (days_from_civil 2016 10 1 + 1) = "2016-10-02" := by decide

/-! ### Concrete fixtures used by witnesses and counterexamples -/

/-- A stream item with id `100` and no optional sub-nodes. -/
def liA : Node := Node.mk "li" ["js-stream-item"] [("data-item-id", "100")] [] ""

/-- A stream item with id `200` and no optional sub-nodes. -/
def liB : Node := Node.mk "li" ["js-stream-item"] [("data-item-id", "200")] [] ""

/-- The record extracted from `liA`. -/
def tA : Tweet := ⟨"100", none, none, none, none, none, 0, 0⟩

/-- The record extracted from `liB`. -/
def tB : Tweet := ⟨"200", none, none, none, none, none, 0, 0⟩

/-- A page holding only `liA`. -/
def rPageA : Response := ⟨some (some [liA]), none⟩

/-- A page holding `liA` then `liB`, no `min_position`. -/
def rPage2 : Response := ⟨some (some [liA, liB]), none⟩

/-- A page holding `liA` then `liB`, with `min_position` present. -/
def rPage2MP : Response := ⟨some (some [liA, liB]), some "CURSOR-X"⟩

/-- An envelope whose `items_html` is JSON `null`. -/
def rNullHtml : Response := ⟨some none, none⟩

/-- An envelope lacking the `items_html` key altogether. -/
def rAbsent : Response := ⟨none, none⟩

/-- A sink that always answers `True` (e.g. `TwitterSlicer.save_tweets`). -/
def sinkTrue : Unit → List Tweet → Unit × Bool := fun _ _ => ((), true)

/-- A sink that always answers `False`. -/
def sinkFalse : Unit → List Tweet → Unit × Bool := fun _ _ => ((), false)

/-- A scripted network: the n-th `execute_search` call returns the n-th entry,
and any call past the script gets an envelope with `null` `items_html`. -/
def oracleOf (rs : List (Option Response)) : Nat → Option Response :=
  fun n => rs.getD n (some rNullHtml)

/-- A run in which `min_position` is present on every page uses it as the
cursor of every advance (sanity check of the envelope-supplied cursor path). -/
example : perform_search sinkTrue () "q" (oracleOf [some rPage2MP, some rPage2MP, some rNullHtml]) 9 =
    ([⟨some "CURSOR-X", [tA, tB], some true, some "CURSOR-X",
        some (construct_url "q" (some "CURSOR-X"))⟩,
      ⟨some "CURSOR-X", [tA, tB], some true, some "CURSOR-X",
        some (construct_url "q" (some "CURSOR-X"))⟩], Outcome.finished) := by decide

/-! ### Inversion helpers for `parseItem` -/

/-- Whatever `userFields` successfully returns has `user_id = user_screen_name`:
both components are read from the same `data-user-id` subscript. -/
theorem userFields_ok_fst_eq {li : Node} {uf : Option String × Option String × Option String}
    (h : userFields li = Except.ok uf) : uf.1 = uf.2.1 := by
  unfold userFields at h
  split at h
  · simp only [Except.ok.injEq] at h
    rw [← h]
  · split at h
    · exact absurd h (by simp)
    · split at h
      · exact absurd h (by simp)
      · simp only [Except.ok.injEq] at h
        rw [← h]

/-- Inversion of a successful record extraction: every field of the record names
the block of `parse_tweets` it was computed by. -/
theorem parseItem_ok_some {li : Node} {t : Tweet} (h : parseItem li = Except.ok (some t)) :
    ∃ tid uf cr rt fv,
      attrLookup li "data-item-id" = some tid ∧
      userFields li = Except.ok uf ∧
      createdField li = Except.ok cr ∧
      retweetField li = Except.ok rt ∧
      favoriteField li = Except.ok fv ∧
      t = ⟨tid, (li.find "p" "tweet-text").map Node.getText, uf.1, uf.2.1, uf.2.2, cr, rt, fv⟩ := by
  unfold parseItem at h
  cases hA : attrLookup li "data-item-id" with
  | none => rw [hA] at h; exact absurd h (by simp)
  | some tid =>
    rw [hA] at h
    cases hU : userFields li with
    | error e => rw [hU] at h; exact absurd h (by simp)
    | ok uf =>
      obtain ⟨uid, uscr, unm⟩ := uf
      rw [hU] at h
      cases hC : createdField li with
      | error e => rw [hC] at h; exact absurd h (by simp)
      | ok cr =>
        rw [hC] at h
        cases hR : retweetField li with
        | error e => rw [hR] at h; exact absurd h (by simp)
        | ok rt =>
          rw [hR] at h
          cases hV : favoriteField li with
          | error e => rw [hV] at h; exact absurd h (by simp)
          | ok fv =>
            rw [hV] at h
            simp only [Except.ok.injEq, Option.some.injEq] at h
            exact ⟨tid, (uid, uscr, unm), cr, rt, fv, rfl, rfl, rfl, rfl, rfl, h.symm⟩

/-- A record always carries the `data-item-id` attribute value of its node. -/
theorem parseItem_id {li : Node} {t : Tweet} (h : parseItem li = Except.ok (some t)) :
    attrLookup li "data-item-id" = some t.tweet_id := by
  obtain ⟨tid, uf, cr, rt, fv, hA, -, -, -, -, ht⟩ := parseItem_ok_some h
  rw [ht]
  exact hA

/-! ### C6 — FetchWithRetry: two failures then a success -/

/-- C6: when a fetch fails twice and then succeeds, `execute_search` performs
exactly two error-delay sleeps, requests the same URL all three times, and
returns the one decoded response — no page lost or duplicated. -/
theorem C6_two_failures_then_success (url : String) (r : Response) :
    execute_search url [none, none, some r] = some ([url, url, url], 2, r) := by
  simp [execute_search]

/-! ### C7 — RangeSplitter: three disjoint single-day sub-queries -/

/-- Day ordinal of 2016-10-01 (the `since` boundary of the scenario). -/
def sliceSince : Int := days_from_civil 2016 10 1

/-- Day ordinal of 2016-10-04 (the `until` boundary of the scenario). -/
def sliceUntil : Int := days_from_civil 2016 10 4

/-- C7: for `since=2016-10-01`, `until=2016-10-04` the slicer submits exactly 3
sub-queries, appending the three half-open single-day filters covering
`[since, until)`. -/
theorem C7_three_daily_slices (query : String) :
    slicer_search query sliceSince sliceUntil =
      [query ++ " since:2016-10-01 until:2016-10-02",
       query ++ " since:2016-10-02 until:2016-10-03",
       query ++ " since:2016-10-03 until:2016-10-04"] := by
  have h : List.range (sliceUntil - sliceSince).toNat = [0, 1, 2] := by decide
  simp only [slicer_search, h, List.map_cons, List.map_nil]
  refine congrArg₂ List.cons (congrArg (fun z => query ++ z) (by decide)) ?_
  refine congrArg₂ List.cons (congrArg (fun z => query ++ z) (by decide)) ?_
  exact congrArg₂ List.cons (congrArg (fun z => query ++ z) (by decide)) rfl

/-! ### C8 — only identifier-carrying stream items become records -/

/-- C8: a stream-item node lacking `data-item-id` contributes no record, and
every extracted record's id is the `data-item-id` attribute of one of the
fragment's stream-item nodes. -/
theorem C8_id_mandatory :
    (∀ li : Node, attrLookup li "data-item-id" = none → parseItem li = Except.ok none) ∧
    (∀ (frag : List Node) (ts : List Tweet), parse_tweets frag = Except.ok ts →
      ∀ t ∈ ts, ∃ li ∈ find_all "li" "js-stream-item" frag,
        attrLookup li "data-item-id" = some t.tweet_id) := by
  constructor
  · intro li h
    unfold parseItem
    rw [h]
  · intro frag ts hok t ht
    unfold parse_tweets at hok
    revert ts
    induction find_all "li" "js-stream-item" frag with
    | nil => intro ts hok ht; simp [parseStream] at hok; subst hok; simp at ht
    | cons li rest ih =>
      intro ts hok ht
      unfold parseStream at hok
      cases hI : parseItem li with
      | error e => rw [hI] at hok; exact absurd hok (by simp)
      | ok t? =>
        rw [hI] at hok
        cases hS : parseStream rest with
        | error e => rw [hS] at hok; exact absurd hok (by simp)
        | ok ts' =>
          rw [hS] at hok
          cases t? with
          | none =>
            simp only [Except.ok.injEq] at hok
            subst hok
            obtain ⟨li', hmem, hattr⟩ := ih ts' hS ht
            exact ⟨li', List.mem_cons_of_mem li hmem, hattr⟩
          | some t0 =>
            simp only [Except.ok.injEq] at hok
            subst hok
            rcases List.mem_cons.mp ht with h0 | h0
            · subst h0
              exact ⟨li, List.mem_cons_self li rest, parseItem_id hI⟩
            · obtain ⟨li', hmem, hattr⟩ := ih ts' hS h0
              exact ⟨li', List.mem_cons_of_mem li hmem, hattr⟩

/-- Witness for C8 at concrete inputs: an identifier-less item is skipped, and
the one record extracted from `[liA]` has its id from `liA`'s attribute. -/
theorem C8_id_mandatory_witness :
    parseItem (Node.mk "li" ["js-stream-item"] [] [] "") = Except.ok none ∧
    ∃ li ∈ find_all "li" "js-stream-item" [liA],
      attrLookup li "data-item-id" = some tA.tweet_id :=
  ⟨C8_id_mandatory.1 (Node.mk "li" ["js-stream-item"] [] [] "") rfl,
   C8_id_mandatory.2 [liA] [tA] (by decide) tA (by simp)⟩

/-! ### C9 — `user_screen_name` equals `user_id` -/

/-- C9: both author identity fields of an extracted record are read from the
same `data-user-id` attribute, so they are always equal (no screen-name
attribute is ever consulted). -/
theorem C9_screen_name_eq_user_id (li : Node) (t : Tweet)
    (h : parseItem li = Except.ok (some t)) : t.user_screen_name = t.user_id := by
  obtain ⟨tid, uf, cr, rt, fv, -, hU, -, -, -, ht⟩ := parseItem_ok_some h
  rw [ht]
  exact (userFields_ok_fst_eq hU).symm

/-- A stream item whose author block carries `data-user-id = 42`. -/
def liUser : Node :=
  Node.mk "li" ["js-stream-item"] [("data-item-id", "500")]
    [Node.mk "div" ["tweet"] [("data-user-id", "42"), ("data-name", "Ann")] [] ""] ""

/-- The record extracted from `liUser`. -/
def tUser : Tweet := ⟨"500", none, some "42", some "42", some "Ann", none, 0, 0⟩

/-- Witness for C9: the record of `liUser` has `user_screen_name = user_id`. -/
theorem C9_screen_name_eq_user_id_witness : tUser.user_screen_name = tUser.user_id :=
  C9_screen_name_eq_user_id liUser tUser (by decide)

/-! ### C10 — favourites guarded by the retweet span -/

/-- C10: when the retweet action-count selection is empty, the extracted
record's favourites count is 0, no matter what favourite action-count nodes are
present — the favourites block is guarded on the retweet span's presence. -/
theorem C10_favorites_guarded_by_retweet_span (li : Node) (t : Tweet)
    (hrs : retweetSel li = []) (h : parseItem li = Except.ok (some t)) :
    t.favorites = 0 := by
  obtain ⟨tid, uf, cr, rt, fv, -, -, -, -, hV, ht⟩ := parseItem_ok_some h
  have hfav : favoriteField li = Except.ok 0 := by
    unfold favoriteField
    rw [hrs]
    simp
  rw [hfav] at hV
  simp only [Except.ok.injEq] at hV
  rw [ht, ← hV]

/-- A stream item with a favourite action-count node (`7`) but no retweet span. -/
def liFavOnly : Node :=
  Node.mk "li" ["js-stream-item"] [("data-item-id", "400")]
    [Node.mk "span" ["ProfileTweet-action--favorite"] []
      [Node.mk "span" ["ProfileTweet-actionCount"] [("data-tweet-stat-count", "7")] [] ""] ""] ""

/-- The record extracted from `liFavOnly`: favourites stay 0 despite the
present favourite count. -/
def tFavOnly : Tweet := ⟨"400", none, none, none, none, none, 0, 0⟩

/-- Witness for C10: `liFavOnly` has a favourite action-count node, yet its
record's favourites count is 0. -/
theorem C10_favorites_guarded_witness :
    (favoriteSel liFavOnly).length = 1 ∧ tFavOnly.favorites = 0 :=
  ⟨rfl, C10_favorites_guarded_by_retweet_span liFavOnly tFavOnly rfl (by decide)⟩

/-! ### C5 — extraction of a node with absent optional sub-nodes -/

/-- C5 (amended): extraction of an identifier-carrying node never raises when
the optional sub-nodes (tweet-text paragraph, author div, timestamp span,
action-count spans) are absent — it yields a record with every other field at
its default.  (The unamended claim fails: a *present* sub-node with a missing
or malformed data attribute makes extraction raise, see the counterexample.) -/
theorem C5_defaults_when_subnodes_absent (li : Node) (tid : String)
    (hid : attrLookup li "data-item-id" = some tid)
    (hp : li.find "p" "tweet-text" = none)
    (hd : li.find "div" "tweet" = none)
    (hts : li.find "span" "_timestamp" = none)
    (hrs : retweetSel li = []) :
    parseItem li = Except.ok (some ⟨tid, none, none, none, none, none, 0, 0⟩) := by
  unfold parseItem userFields createdField retweetField favoriteField
  rw [hid, hp, hd, hts, hrs]
  simp

/-- Witness for C5 (amended) at `liA`. -/
theorem C5_defaults_witness :
    parseItem liA = Except.ok (some ⟨"100", none, none, none, none, none, 0, 0⟩) :=
  C5_defaults_when_subnodes_absent liA "100" rfl rfl rfl rfl rfl

/-- A stream item whose author div is present but lacks `data-user-id`. -/
def liNoUserId : Node :=
  Node.mk "li" ["js-stream-item"] [("data-item-id", "300")]
    [Node.mk "div" ["tweet"] [] [] ""] ""

/-- C5 counterexample: a node carrying `data-item-id` whose author div lacks
`data-user-id` makes `parse_tweets`'s loop body raise `KeyError` instead of
returning a record with defaults. -/
theorem C5_counterexample :
    parseItem liNoUserId = Except.error "KeyError: data-user-id" := by decide

/-! ### C1 — termination on an exhausted result set -/

/-- Helper: with `continue_search` false, the loop exits at once. -/
theorem searchLoop_cont_false {σ : Type} (sinkStep : σ → List Tweet → σ × Bool)
    (query : String) (oracle : Nat → Option Response) (fuel : Nat)
    (respOpt : Option Response) (minT : Option (Tweet × Nat)) (fetchIdx iter : Nat) (s : σ) :
    searchLoop sinkStep query oracle (fuel + 1) respOpt false minT fetchIdx iter s =
      ([], Outcome.finished) := by
  cases respOpt <;> simp [searchLoop]

/-- C1 (amended): whenever the response in hand has an `items_html` key whose
value yields zero records — JSON `null`, or a fragment extracting to no tweets
(in particular the empty string) — the loop exits normally: no sink call and no
further fetch happen.  (The unamended claim also covered an *absent*
`items_html` key, but there the subscript in the loop condition raises
`KeyError`, see the counterexample.) -/
theorem C1_exhausted_page_exits {σ : Type} (sinkStep : σ → List Tweet → σ × Bool)
    (query : String) (oracle : Nat → Option Response) (fuel : Nat) (r : Response)
    (cont : Bool) (minT : Option (Tweet × Nat)) (fetchIdx iter : Nat) (s : σ)
    (h : r.items_html = some none ∨
      ∃ frag, r.items_html = some (some frag) ∧ parse_tweets frag = Except.ok []) :
    (searchLoop sinkStep query oracle (fuel + 1) (some r) cont minT fetchIdx iter s).2 =
      Outcome.finished ∧
    ∀ log ∈ (searchLoop sinkStep query oracle (fuel + 1) (some r) cont minT fetchIdx iter s).1,
      log.sinkRes = none ∧ log.fetchUrl = none := by
  rcases h with h1 | ⟨frag, h1, h2⟩
  · cases cont <;> simp [searchLoop, h1]
  · cases cont <;> simp [searchLoop, h1, h2]

/-- Witness for C1 (amended): a `null` `items_html` exits the loop at once. -/
theorem C1_exhausted_page_exits_witness :
    (searchLoop sinkTrue "q" (oracleOf []) 1 (some rNullHtml) true none 1 0 ()).2 =
      Outcome.finished ∧
    ∀ log ∈ (searchLoop sinkTrue "q" (oracleOf []) 1 (some rNullHtml) true none 1 0 ()).1,
      log.sinkRes = none ∧ log.fetchUrl = none :=
  C1_exhausted_page_exits sinkTrue "q" (oracleOf []) 0 rNullHtml true none 1 0 () (Or.inl rfl)

/-- C1 counterexample: when the fetched envelope *lacks* the `items_html` key,
`perform_search` raises `KeyError` from the loop condition's subscript instead
of terminating normally. -/
theorem C1_counterexample :
    perform_search sinkTrue () "q" (oracleOf [some rAbsent]) 6 =
      ([], Outcome.keyError) := by decide

/-! ### C2 — behaviour after the sink answers `False` -/

/-- C2 (amended): after a sink call returns `False` on a nonempty page, no
further records are forwarded and the run finishes at the next loop-condition
check — but first, when the advance guard passes (the page's last record is a
distinct object from `min_tweet`, the usual case), the engine still computes
the next cursor, sleeps, and issues one more fetch whose response is then
discarded. -/
theorem C2_sink_false_exits_after_one_more_fetch {σ : Type}
    (sinkStep : σ → List Tweet → σ × Bool) (query : String) (oracle : Nat → Option Response)
    (fuel : Nat) (r : Response) (frag : List Node) (t0 : Tweet) (rest : List Tweet)
    (minT : Option (Tweet × Nat)) (fetchIdx iter : Nat) (s s' : σ)
    (hH : r.items_html = some (some frag))
    (hP : parse_tweets frag = Except.ok (t0 :: rest))
    (hS : sinkStep s (t0 :: rest) = (s', false)) :
    searchLoop sinkStep query oracle (fuel + 2) (some r) true minT fetchIdx iter s =
      (let mPair : Tweet × Nat := match minT with | none => (t0, iter) | some m => m
       let sameObj : Bool := mPair.2 == iter && ((t0 :: rest).length == 1)
       let cursor : String := match r.min_position with
         | some mp => mp
         | none => "TWEET-" ++ (List.getLastD rest t0).tweet_id ++ "-" ++ mPair.1.tweet_id
       ([⟨r.min_position, t0 :: rest, some false,
          if sameObj then none else some cursor,
          if sameObj then none else some (construct_url query (some cursor))⟩],
        Outcome.finished)) := by
  simp only [searchLoop, hH, hP, hS, if_true]
  split <;> simp [searchLoop_cont_false]

/-- Witness for C2 (amended): a two-record page whose sink call answers `False`
produces exactly one log entry, carrying the extra fetch, and finishes. -/
theorem C2_sink_false_exits_witness :
    searchLoop sinkFalse "q" (oracleOf []) 2 (some rPage2) true none 1 0 () =
      (let mPair : Tweet × Nat :=
        match (none : Option (Tweet × Nat)) with | none => (tA, 0) | some m => m
       let sameObj : Bool := mPair.2 == 0 && (([tA] ++ [tB]).length == 1)
       let cursor : String := match rPage2.min_position with
         | some mp => mp
         | none => "TWEET-" ++ (List.getLastD [tB] tA).tweet_id ++ "-" ++ mPair.1.tweet_id
       ([⟨rPage2.min_position, [tA] ++ [tB], some false,
          if sameObj then none else some cursor,
          if sameObj then none else some (construct_url "q" (some cursor))⟩],
        Outcome.finished)) :=
  C2_sink_false_exits_after_one_more_fetch sinkFalse "q" (oracleOf []) 0 rPage2 [liA, liB]
    tA [tB] none 1 0 () () rfl (by decide) rfl

/-- C2 counterexample: in a run whose only sink call returns `False` on a
two-record page, the engine still issues a further fetch (the log entry of the
very iteration that got `False` records a fetched URL) before terminating, so
"no further fetch is issued" fails. -/
theorem C2_counterexample :
    (perform_search sinkFalse () "q" (oracleOf [some rPage2]) 6).1 =
      [⟨none, [tA, tB], some false, some "TWEET-200-100",
        some (construct_url "q" (some "TWEET-200-100"))⟩] ∧
    (perform_search sinkFalse () "q" (oracleOf [some rPage2]) 6).2 =
      Outcome.finished := by decide

/-! ### C4 — pages whose last record repeats `min_record`'s id -/

/-- C4 (amended): when `min_tweet` was created by an *earlier* iteration's
parse (so Python's `is not` compares distinct string objects even for equal
id values), a page whose last record has the same id as `min_record` — sink
answering `True` — advances exactly as a normal advance step: same cursor
computation, then a fetch of the next page. -/
theorem C4_distinct_min_advances_normally {σ : Type}
    (sinkStep : σ → List Tweet → σ × Bool) (query : String) (oracle : Nat → Option Response)
    (fuel : Nat) (r : Response) (frag : List Node) (t0 : Tweet) (rest : List Tweet)
    (m : Tweet) (j : Nat) (fetchIdx iter : Nat) (s s' : σ)
    (hH : r.items_html = some (some frag))
    (hP : parse_tweets frag = Except.ok (t0 :: rest))
    (hS : sinkStep s (t0 :: rest) = (s', true))
    (hJ : j ≠ iter)
    (_hId : (List.getLastD rest t0).tweet_id = m.tweet_id) :
    searchLoop sinkStep query oracle (fuel + 1) (some r) true (some (m, j)) fetchIdx iter s =
      (let cursor : String := match r.min_position with
         | some mp => mp
         | none => "TWEET-" ++ (List.getLastD rest t0).tweet_id ++ "-" ++ m.tweet_id
       let next := searchLoop sinkStep query oracle fuel (oracle fetchIdx) true (some (m, j))
         (fetchIdx + 1) (iter + 1) s'
       (⟨r.min_position, t0 :: rest, some true, some cursor,
         some (construct_url query (some cursor))⟩ :: next.1, next.2)) := by
  have hb : (j == iter) = false := beq_eq_false_iff_ne.mpr hJ
  simp only [searchLoop, hH, hP, hS, if_true, hb, Bool.false_and, if_false]
  simp

/-- Witness for C4 (amended): a later single-record page `[tA]` whose id equals
`min_record`'s (`tA` itself, recorded at iteration 0, current iteration 1)
advances normally with the synthesized cursor. -/
theorem C4_distinct_min_advances_witness :
    searchLoop sinkTrue "q" (oracleOf []) 1 (some rPageA) true (some (tA, 0)) 1 1 () =
      (let cursor : String := match rPageA.min_position with
         | some mp => mp
         | none => "TWEET-" ++ (List.getLastD [] tA).tweet_id ++ "-" ++ tA.tweet_id
       let next := searchLoop sinkTrue "q" (oracleOf []) 0 (oracleOf [] 1) true (some (tA, 0))
         2 2 ()
       (⟨rPageA.min_position, [tA], some true, some cursor,
         some (construct_url "q" (some cursor))⟩ :: next.1, next.2)) :=
  C4_distinct_min_advances_normally sinkTrue "q" (oracleOf []) 0 rPageA [liA] tA [] tA 0 1 1
    () () rfl (by decide) rfl (by decide) rfl

/-! ### C3 — cursor computation on every advance -/

/-- Helper: once `min_tweet` is set (to `m`, recorded at iteration `j`), every
later advance computes its cursor as the response's `min_position` when
present, else `TWEET-<last id of that page>-<m's id>`, and fetches with it. -/
theorem searchLoop_cursor_minSet {σ : Type} (sinkStep : σ → List Tweet → σ × Bool)
    (query : String) (oracle : Nat → Option Response) (m : Tweet) :
    ∀ (fuel j : Nat) (respOpt : Option Response) (cont : Bool)
      (fetchIdx iter : Nat) (s : σ) (log : IterLog) (c : String),
      log ∈ (searchLoop sinkStep query oracle fuel respOpt cont (some (m, j)) fetchIdx iter s).1 →
      log.cursor = some c →
      (c = match log.minPos with
        | some mp => mp
        | none => "TWEET-" ++ (log.tweets.getLastD defTweet).tweet_id ++ "-" ++ m.tweet_id) ∧
      log.fetchUrl = some (construct_url query (some c)) := by
  intro fuel
  induction fuel with
  | zero =>
    intro j respOpt cont fetchIdx iter s log c hmem hc
    simp [searchLoop] at hmem
  | succ fuel ih =>
    intro j respOpt cont fetchIdx iter s log c hmem hc
    cases respOpt with
    | none => simp [searchLoop] at hmem
    | some r =>
      cases cont with
      | false => simp [searchLoop] at hmem
      | true =>
        match hH : r.items_html with
        | none => simp [searchLoop, hH] at hmem
        | some none => simp [searchLoop, hH] at hmem
        | some (some frag) =>
          match hP : parse_tweets frag with
          | Except.error e => simp [searchLoop, hH, hP] at hmem
          | Except.ok [] =>
            simp only [searchLoop, hH, hP, if_true] at hmem
            simp at hmem
            rw [hmem] at hc
            exact absurd hc (by simp)
          | Except.ok (t0 :: rest) =>
            simp only [searchLoop, hH, hP, if_true] at hmem
            split at hmem
            · simp only [List.mem_cons] at hmem
              rcases hmem with h0 | h0
              · rw [h0] at hc
                exact absurd hc (by simp)
              · exact ih _ _ _ _ _ _ _ _ h0 hc
            · simp only [List.mem_cons] at hmem
              rcases hmem with h0 | h0
              · subst h0
                simp only [Option.some.injEq] at hc
                subst hc
                refine ⟨?_, rfl⟩
                cases hMP : r.min_position with
                | some mp => simp [hMP]
                | none => simp only [hMP, List.getLastD_cons]
              · exact ih _ _ _ _ _ _ _ _ h0 hc

/-- C3: in every run of `perform_search`, every advance computes its cursor as
the response envelope's `min_position` when that key is present, else
`"TWEET-<id of the last record of the current page>-<id of the first record of
the first page>"`, and the fetch it issues uses exactly that cursor. -/
theorem C3_cursor_of_every_advance {σ : Type} (sinkStep : σ → List Tweet → σ × Bool)
    (sinkInit : σ) (query : String) (oracle : Nat → Option Response) (fuel : Nat)
    (logs : List IterLog) (out : Outcome) (log : IterLog) (c : String)
    (hrun : perform_search sinkStep sinkInit query oracle fuel = (logs, out))
    (hmem : log ∈ logs) (hc : log.cursor = some c) :
    (c = match log.minPos with
      | some mp => mp
      | none => "TWEET-" ++ (log.tweets.getLastD defTweet).tweet_id ++ "-" ++
          ((logs.headD defLog).tweets.headD defTweet).tweet_id) ∧
    log.fetchUrl = some (construct_url query (some c)) := by
  have hlogs : logs = (perform_search sinkStep sinkInit query oracle fuel).1 := by
    rw [hrun]
  subst hlogs
  clear hrun
  unfold perform_search at hmem ⊢
  cases fuel with
  | zero => simp [searchLoop] at hmem
  | succ fuel =>
    cases hO : oracle 0 with
    | none => rw [hO] at hmem; simp [searchLoop] at hmem
    | some r =>
      rw [hO] at hmem
      match hH : r.items_html with
      | none => simp [searchLoop, hH] at hmem
      | some none => simp [searchLoop, hH] at hmem
      | some (some frag) =>
        match hP : parse_tweets frag with
        | Except.error e => simp [searchLoop, hH, hP] at hmem
        | Except.ok [] =>
          simp only [searchLoop, hH, hP, if_true] at hmem
          simp at hmem
          rw [hmem] at hc
          exact absurd hc (by simp)
        | Except.ok (t0 :: rest) =>
          simp only [searchLoop, hH, hP, if_true] at hmem ⊢
          split at hmem <;> rename_i hcond
          · rw [if_pos hcond]
            simp only [List.mem_cons] at hmem
            rcases hmem with h0 | h0
            · rw [h0] at hc
              exact absurd hc (by simp)
            · have hres := searchLoop_cursor_minSet sinkStep query oracle t0 _ _ _ _ _ _ _ _ _
                h0 hc
              simp only [List.headD_cons]
              exact hres
          · rw [if_neg hcond]
            simp only [List.mem_cons] at hmem
            rcases hmem with h0 | h0
            · subst h0
              simp only [Option.some.injEq] at hc
              subst hc
              refine ⟨?_, rfl⟩
              simp only [List.headD_cons]
              cases hMP : r.min_position with
              | some mp => simp [hMP]
              | none => simp only [hMP, List.getLastD_cons]
            · have hres := searchLoop_cursor_minSet sinkStep query oracle t0 _ _ _ _ _ _ _ _ _
                h0 hc
              simp only [List.headD_cons]
              exact hres

/-- Witness for C3: in the concrete run over a two-record page without
`min_position`, the one advance synthesizes `TWEET-200-100` (last id of the
page, then the first id of the first page) and fetches with it. -/
theorem C3_cursor_witness :
    ("TWEET-200-100" =
      match (none : Option String) with
      | some mp => mp
      | none => "TWEET-" ++ (([tA, tB].getLastD defTweet)).tweet_id ++ "-" ++
          ((([⟨none, [tA, tB], some true, some "TWEET-200-100",
              some (construct_url "q" (some "TWEET-200-100"))⟩] : List IterLog).headD
            defLog).tweets.headD defTweet).tweet_id) ∧
    (⟨none, [tA, tB], some true, some "TWEET-200-100",
      some (construct_url "q" (some "TWEET-200-100"))⟩ : IterLog).fetchUrl =
      some (construct_url "q" (some "TWEET-200-100")) :=
  C3_cursor_of_every_advance sinkTrue () "q" (oracleOf [some rPage2]) 6
    [⟨none, [tA, tB], some true, some "TWEET-200-100",
      some (construct_url "q" (some "TWEET-200-100"))⟩] Outcome.finished
    ⟨none, [tA, tB], some true, some "TWEET-200-100",
      some (construct_url "q" (some "TWEET-200-100"))⟩ "TWEET-200-100"
    (by decide) (by simp) rfl

/-- C4 counterexample: on a single-record *first* page (sink answering `True`,
last record trivially sharing `min_record`'s id), the engine does *not* fetch
the next page in that advance step: the identity test compares a string object
with itself, so the iteration issues no fetch, re-parses the same response, and
forwards the same page to the sink a second time before advancing. -/
theorem C4_counterexample :
    perform_search sinkTrue () "q" (oracleOf [some rPageA]) 6 =
      ([⟨none, [tA], some true, none, none⟩,
        ⟨none, [tA], some true, some "TWEET-100-100",
          some (construct_url "q" (some "TWEET-100-100"))⟩], Outcome.finished) := by decide

/-! ### Sanity checks of the extractor and the numeric-literal acceptors -/

example :
    parse_tweets [Node.mk "li" ["js-stream-item"] [("data-item-id", "100")] [] ""] =
      Except.ok [⟨"100", none, none, none, none, none, 0, 0⟩] := by decide

example : pyInt " 1_234 " = some 1234 := by decide
example : pyInt "12_" = none := by decide
example : pyFloatAccepts "1477430400000" = true := by decide
example : pyFloatAccepts "1.5e-3" = true := by decide
example : pyFloatAccepts "1..5" = false := by decide
example : pyFloatAccepts "-inF" = true := by decide
